import Mathlib

/-!
Shallow embedding of the `mosspiglet` agent (src/agent.rs, src/service.rs,
src/main.rs).

The agent serves a per-process atomic `u64` counter over a named pipe; a
lifecycle manager installs / uninstalls / queries the corresponding OS
service.  Machine integers are modelled as `Nat` with explicit `% 2^64`
where overflow matters; fallible operations return `Except`; the OS service
manager and the pipe transport are modelled as explicit state plus an
error-injection oracle, since they live outside the repository.
-/

namespace Mosspiglet

/-- `2^64`, the modulus of the agent's `AtomicU64` counter. -/
def U64MOD : Nat := 2 ^ 64

/-! ### Shutdown channel (tokio `mpsc::channel(1)` sender side)

`Agent::new` creates a capacity-1 channel; `Agent::shutdown_sender` hands the
sender out, and `main.rs::win_service_main` signals stop with
`let _ = shutdown_sender.try_send(());` discarding the result. -/

/-- State of the capacity-1 shutdown channel: how many messages are queued
(at most 1) and whether the receiver closed it. -/
structure ShutdownChannel where
  queued : Nat
  closed : Bool
deriving Repr, DecidableEq

/-- The channel as `Agent::new` creates it: empty and open. -/
def ShutdownChannel.fresh : ShutdownChannel := { queued := 0, closed := false }

/-- Result of tokio's `Sender::try_send` on the unit channel. -/
inductive TrySendResult where
  | ok
  | full
  | closedErr
deriving Repr, DecidableEq

/-- tokio `Sender::try_send(())` on a capacity-1 channel: errors without
blocking when the channel is closed or the single slot is occupied,
otherwise enqueues the message. -/
def trySend (ch : ShutdownChannel) : TrySendResult × ShutdownChannel :=
  if ch.closed then (TrySendResult.closedErr, ch)
  else if 1 ≤ ch.queued then (TrySendResult.full, ch)
  else (TrySendResult.ok, { ch with queued := ch.queued + 1 })

/-- The stop-control callback in `win_service_main`:
`let _ = shutdown_sender.try_send(());` — the result is discarded, so the
signalling caller observes only the (possible) state change. -/
def signalShutdown (ch : ShutdownChannel) : ShutdownChannel :=
  (trySend ch).2

/-! ### Wire protocol (8-byte `u64`, tokio `write_u64` / `read_u64`)

tokio's `AsyncWriteExt::write_u64` writes the value as 8 bytes in big-endian
order and `AsyncReadExt::read_u64` reads exactly 8 bytes back, failing with
an early-EOF error if the stream ends first. -/

/-- Big-endian 8-byte encoding of a `u64` value, as written by
`connected_server.write_u64(v)` in the per-connection task (agent.rs:51). -/
def encodeU64 (v : Nat) : List Nat :=
  [v / 2 ^ 56 % 256, v / 2 ^ 48 % 256, v / 2 ^ 40 % 256, v / 2 ^ 32 % 256,
   v / 2 ^ 24 % 256, v / 2 ^ 16 % 256, v / 2 ^ 8 % 256, v % 256]

/-- Big-endian decoding of the first 8 bytes, as performed by
`client.read_u64()` in `Agent::query_status` (agent.rs:76). -/
def decodeU64 (bs : List Nat) : Nat :=
  match bs with
  | b0 :: b1 :: b2 :: b3 :: b4 :: b5 :: b6 :: b7 :: _ =>
      b0 * 2 ^ 56 + b1 * 2 ^ 48 + b2 * 2 ^ 40 + b3 * 2 ^ 32 +
      b4 * 2 ^ 24 + b5 * 2 ^ 16 + b6 * 2 ^ 8 + b7
  | _ => 0

/-- The bytes a per-connection task delivers to its client before closing the
connection: exactly the 8-byte encoding of the counter value it drew
(agent.rs:50-54). -/
def serveConnection (v : Nat) : List Nat :=
  encodeU64 v

/-- What `Agent::query_status` observes: either no server is listening
(`ClientOptions::open` fails) or a byte stream from one connection. -/
inductive ProbeConnection where
  | refused
  | stream (bytes : List Nat)
deriving Repr, DecidableEq

/-- Errors `Agent::query_status` can surface. -/
inductive ProbeError where
  | connectionRefused
  | truncatedRead
deriving Repr, DecidableEq

/-- `Agent::query_status` (agent.rs:74-77): connect as a client (fails if no
listener), then `read_u64` — exactly 8 bytes, failing on early EOF. -/
def query_status (conn : ProbeConnection) : Except ProbeError Nat :=
  match conn with
  | ProbeConnection.refused => Except.error ProbeError.connectionRefused
  | ProbeConnection.stream bytes =>
      if bytes.length < 8 then Except.error ProbeError.truncatedRead
      else Except.ok (decodeU64 bytes)

/-! ### Agent run loop (`Agent::run`, agent.rs:35-72)

`run` creates an exclusive first pipe instance (propagating failure with
`?`), then loops, selecting between `server.connect()` and
`shutdown_recv.recv()`.  On a successful connection it provisions the next
listening endpoint (again with `?` — a failure here also aborts `run`) and
spawns a task that writes `counter.fetch_add(1, SeqCst)` to the client and
disconnects.  On a connect error it logs and continues.  On shutdown it
closes the channel, best-effort disconnects the idle endpoint, and breaks.

The embedding drives the loop with an explicit event script and a creation
oracle `crOk : Nat → Bool` giving the outcome of the n-th
`ServerOptions::create` call (index 0 is the `first_pipe_instance` one).
The per-connection task's fetch-and-write is folded into the spawn point,
which coincides with the code whenever connections are serialized (the
setting of the sequential-counter claim). -/

/-- One iteration's outcome of the `tokio::select!` in the accept loop. -/
inductive LoopEvent where
  | connOk
  | connErr (msg : String)
  | shutdownReq
deriving Repr, DecidableEq

/-- Observable state accumulated by the accept loop: the atomic counter
(always `< 2^64`), the values handed to spawned per-connection tasks in
spawn order, the logged accept errors, and the shutdown bookkeeping done on
the way out. -/
structure RunState where
  counter : Nat
  spawnedWrites : List Nat
  acceptErrors : List String
  created : Nat
  shutdownClosed : Bool
  pendingDisconnected : Bool
deriving Repr, DecidableEq

/-- State right after `Agent::new` plus the successful first
`ServerOptions::create` (one endpoint created, counter 0). -/
def RunState.init : RunState :=
  { counter := 0, spawnedWrites := [], acceptErrors := [], created := 1,
    shutdownClosed := false, pendingDisconnected := false }

/-- How `Agent::run` ends relative to the supplied script: an endpoint
creation failed (the `?` propagated an error), the shutdown branch ran and
`run` returned `Ok(())` leaving the remaining events unprocessed, or the
script ran out with the loop still at its select point. -/
inductive RunOutcome where
  | fatalCreate (st : RunState)
  | done (st : RunState) (unprocessed : List LoopEvent)
  | stillRunning (st : RunState)
deriving Repr, DecidableEq

/-- The accept loop of `Agent::run`, after the first endpoint exists. -/
def runLoopAux (crOk : Nat → Bool) : List LoopEvent → RunState → RunOutcome
  | [], st => RunOutcome.stillRunning st
  | LoopEvent.connOk :: rest, st =>
      if crOk st.created then
        runLoopAux crOk rest
          { st with
            counter := (st.counter + 1) % U64MOD,
            spawnedWrites := st.spawnedWrites ++ [st.counter],
            created := st.created + 1 }
      else
        RunOutcome.fatalCreate st
  | LoopEvent.connErr m :: rest, st =>
      runLoopAux crOk rest { st with acceptErrors := st.acceptErrors ++ [m] }
  | LoopEvent.shutdownReq :: rest, st =>
      RunOutcome.done
        { st with shutdownClosed := true, pendingDisconnected := true } rest

/-- `Agent::run` from a freshly constructed `Agent`: the first
`first_pipe_instance` creation, then the accept loop. -/
def agentRun (crOk : Nat → Bool) (events : List LoopEvent) : RunOutcome :=
  if crOk 0 then runLoopAux crOk events RunState.init
  else
    RunOutcome.fatalCreate
      { counter := 0, spawnedWrites := [], acceptErrors := [], created := 0,
        shutdownClosed := false, pendingDisconnected := false }

/-- Whether `run` returned `Err(..)` (an endpoint creation failed). -/
def RunOutcome.isErr : RunOutcome → Bool
  | RunOutcome.fatalCreate _ => true
  | _ => false

/-- The accumulated state of an outcome. -/
def RunOutcome.state : RunOutcome → RunState
  | RunOutcome.fatalCreate st => st
  | RunOutcome.done st _ => st
  | RunOutcome.stillRunning st => st

/-- Values written to clients by spawned tasks, in connection order. -/
def RunOutcome.writes (o : RunOutcome) : List Nat :=
  o.state.spawnedWrites

/-- The creation oracle under which every `ServerOptions::create` succeeds. -/
def allCreationsOk : Nat → Bool := fun _ => true

/-- Number of `connOk` events the loop can reach: those before the first
shutdown request in the script. -/
def reachableConnOks (events : List LoopEvent) : Nat :=
  (events.takeWhile (fun e => e ≠ LoopEvent.shutdownReq)).countP
    (fun e => e = LoopEvent.connOk)

/-- The same event script with all accept-error events removed. -/
def dropConnErrs (evts : List LoopEvent) : List LoopEvent :=
  evts.filter (fun e => match e with | LoopEvent.connErr _ => false | _ => true)

/-- An outcome with its accept-error log blanked (and, in the unprocessed
tail of a `done`, accept errors removed as well): the part of a run that is
not the error log. -/
def RunOutcome.scrub : RunOutcome → RunOutcome
  | RunOutcome.fatalCreate st => RunOutcome.fatalCreate { st with acceptErrors := [] }
  | RunOutcome.done st rest =>
      RunOutcome.done { st with acceptErrors := [] } (dropConnErrs rest)
  | RunOutcome.stillRunning st => RunOutcome.stillRunning { st with acceptErrors := [] }

/-! ### Error taxonomy and boundary mapping (service.rs:7-66)

`windows_service::Error` is external; its variants are embedded as an
inductive carrying the `Display` text of their payloads (which is all the
mapping ever uses).  `io::ErrorKind` is reduced to the one distinction the
mapping makes, and `raw_os_error` is an `Option Nat`. -/

/-- The facets of a `std::io::Error` inside `windows_service::Error::Winapi`
that the boundary mapping inspects. -/
inductive IoKind where
  | permissionDenied
  | otherKind
deriving Repr, DecidableEq

/-- `windows_service::Error` (the OS service crate's error enum), with each
payload reduced to its `Display` rendering, plus the io-error facets for
`Winapi`. -/
inductive WinServiceError where
  | invalidAccountName (msg : String)
  | invalidAccountPassword (msg : String)
  | invalidDisplayName (msg : String)
  | invalidDatabaseName (msg : String)
  | invalidExecutablePath (msg : String)
  | invalidLaunchArgument (idx : Nat) (msg : String)
  | launchArgumentsNotSupported
  | invalidDependency (msg : String)
  | invalidMachineName (msg : String)
  | invalidServiceName (msg : String)
  | invalidStartArgument (msg : String)
  | invalidServiceState (msg : String)
  | invalidServiceStartType (msg : String)
  | invalidServiceErrorControl (msg : String)
  | invalidServiceActionType (msg : String)
  | invalidServiceActionFailuresRebootMessage (msg : String)
  | invalidServiceActionFailuresCommand (msg : String)
  | invalidServiceDescription (msg : String)
  | winapi (kind : IoKind) (rawOsError : Option Nat) (msg : String)
deriving Repr, DecidableEq

/-- `ServiceError` (service.rs:8-33): the closed taxonomy surfaced past the
lifecycle-manager boundary. -/
inductive ServiceError where
  | accessDenied
  | invalidServiceName
  | installationFailed (detail : String)
  | serviceNotInstalled
  | serviceRunning
  | unknownError (detail : String)
deriving Repr, DecidableEq

/-- The `thiserror` `Display` strings of `ServiceError`
(the `#[error("...")]` attributes, service.rs:11-31). -/
def ServiceError.display : ServiceError → String
  | ServiceError.accessDenied => "access to service manager was denied"
  | ServiceError.invalidServiceName => "invalid service name"
  | ServiceError.installationFailed d => "failed to install service: " ++ d
  | ServiceError.serviceNotInstalled => "service is not installed"
  | ServiceError.serviceRunning => "service is running"
  | ServiceError.unknownError d => "unknown error: " ++ d

/-- `impl From<windows_service::Error> for ServiceError` (service.rs:35-66):
the single boundary translation of OS service-manager errors. -/
def serviceErrorFrom : WinServiceError → ServiceError
  | WinServiceError.invalidAccountName m => ServiceError.installationFailed m
  | WinServiceError.invalidAccountPassword m => ServiceError.installationFailed m
  | WinServiceError.invalidDisplayName m => ServiceError.installationFailed m
  | WinServiceError.invalidDatabaseName m => ServiceError.installationFailed m
  | WinServiceError.invalidExecutablePath m => ServiceError.installationFailed m
  | WinServiceError.invalidLaunchArgument _ m => ServiceError.installationFailed m
  | WinServiceError.launchArgumentsNotSupported =>
      ServiceError.installationFailed "launch arguments not supported"
  | WinServiceError.invalidDependency m => ServiceError.installationFailed m
  | WinServiceError.invalidMachineName m => ServiceError.unknownError m
  | WinServiceError.invalidServiceName _ => ServiceError.invalidServiceName
  | WinServiceError.invalidStartArgument m => ServiceError.unknownError m
  | WinServiceError.invalidServiceState m => ServiceError.unknownError m
  | WinServiceError.invalidServiceStartType m => ServiceError.unknownError m
  | WinServiceError.invalidServiceErrorControl m => ServiceError.unknownError m
  | WinServiceError.invalidServiceActionType m => ServiceError.unknownError m
  | WinServiceError.invalidServiceActionFailuresRebootMessage m =>
      ServiceError.unknownError m
  | WinServiceError.invalidServiceActionFailuresCommand m =>
      ServiceError.unknownError m
  | WinServiceError.invalidServiceDescription m => ServiceError.installationFailed m
  | WinServiceError.winapi kind raw m =>
      match kind with
      | IoKind.permissionDenied => ServiceError.accessDenied
      | IoKind.otherKind =>
          match raw with
          | some n =>
              if n = 1060 then ServiceError.serviceNotInstalled
              else ServiceError.unknownError m
          | none => ServiceError.unknownError m

/-! ### OS service registry model (service.rs:68-200)

The `windows_service` manager is external state: a registry slot for the
service (its persisted `ServiceInfo`) and the OS-reported service state.
Each OS call site can be made to fail through an injection oracle; a
successful `open_service` on an unregistered name fails with the Winapi
error carrying raw OS code 1060 (`ERROR_SERVICE_DOES_NOT_EXIST`), which is
what the boundary mapping turns into `ServiceNotInstalled`. -/

/-- `windows_service::service::ServiceState` as reported by
`query_status().current_state`. -/
inductive OSServiceState where
  | stopped
  | startPending
  | stopPending
  | running
  | continuePending
  | pausePending
  | paused
deriving Repr, DecidableEq

/-- `ServiceStatus` (service.rs:70-77). -/
inductive ServiceStatus where
  | uninstalled
  | stopped
  | running
deriving Repr, DecidableEq

/-- `ServiceDescription` (service.rs:81-88). -/
structure ServiceDescription where
  friendly_name : String
  binary_path : String
  args : List String
deriving Repr, DecidableEq

/-- The `ServiceInfo` persisted in the OS registry by `install`
(service.rs:143-154): the fields the code sets, keyed under the service
name held by `SystemService`. -/
structure RegEntry where
  displayName : String
  executablePath : String
  launchArguments : List String
deriving Repr, DecidableEq

/-- The OS service registry as seen through one service name: the optional
registration and the OS-reported service state (meaningful when
registered). -/
structure OSState where
  registered : Option RegEntry
  runState : OSServiceState
deriving Repr, DecidableEq

/-- Fault injection for each kind of OS call the lifecycle manager makes:
`ServiceManager::local_computer`, `open_service`, `query_status`,
`query_config`, `create_service`, `delete`, `start`, `stop`.  `none` means
the call behaves normally. -/
structure OSOracle where
  mgrConnectErr : Option WinServiceError := none
  openErr : Option WinServiceError := none
  queryStatusErr : Option WinServiceError := none
  queryConfigErr : Option WinServiceError := none
  createErr : Option WinServiceError := none
  deleteErr : Option WinServiceError := none
  startErr : Option WinServiceError := none
  stopErr : Option WinServiceError := none
deriving Repr, DecidableEq

/-- The fault-free oracle: every OS call behaves normally. -/
def OSOracle.clean : OSOracle := {}

/-- The `Display` text the OS produces for "service does not exist"; only
its routing through raw code 1060 matters to the code. -/
def notFoundMsg : String := "The specified service does not exist."

/-- `manager.open_service(name, _)` with the boundary mapping applied:
an injected fault wins, otherwise the call succeeds exactly when the
service is registered, failing with the raw-1060 Winapi error when not. -/
def openService (inj : Option WinServiceError) (s : OSState) :
    Except ServiceError RegEntry :=
  match inj with
  | some w => Except.error (serviceErrorFrom w)
  | none =>
      match s.registered with
      | some entry => Except.ok entry
      | none =>
          Except.error
            (serviceErrorFrom
              (WinServiceError.winapi IoKind.otherKind (some 1060) notFoundMsg))

/-- `manager.create_service(&service_info, ..)` as the repository contracts
it (install doc comment, service.rs:136-140, and spec §4.4): registers the
service, or — when it already exists — updates the persisted configuration
without restarting a running instance.  The OS-reported run state is
untouched either way. -/
def createService (inj : Option WinServiceError) (s : OSState) (info : RegEntry) :
    Except ServiceError Unit × OSState :=
  match inj with
  | some w => (Except.error (serviceErrorFrom w), s)
  | none => (Except.ok (), { s with registered := some info })

namespace SystemService

/-- `SystemService::status` (service.rs:102-119): connect to the manager,
open the service for `QUERY_STATUS` with the error boundary-mapped; a
`ServiceNotInstalled` open failure means `Uninstalled`, any other open
failure is re-wrapped as `InstallationFailed` of its display text; on a
handle, `query_status` distinguishes only `Stopped` from everything else. -/
def status (o : OSOracle) (s : OSState) : Except ServiceError ServiceStatus :=
  match o.mgrConnectErr with
  | some w => Except.error (serviceErrorFrom w)
  | none =>
      match openService o.openErr s with
      | Except.ok _ =>
          match o.queryStatusErr with
          | some w => Except.error (serviceErrorFrom w)
          | none =>
              match s.runState with
              | OSServiceState.stopped => Except.ok ServiceStatus.stopped
              | _ => Except.ok ServiceStatus.running
      | Except.error ServiceError.serviceNotInstalled =>
          Except.ok ServiceStatus.uninstalled
      | Except.error e =>
          Except.error (ServiceError.installationFailed e.display)

/-- `SystemService::description` (service.rs:124-134): open for
`QUERY_CONFIG` (errors propagate boundary-mapped), then rebuild the
description from the persisted config — launch arguments are not
retrievable and are reported empty (the `TODO` at service.rs:132). -/
def description (o : OSOracle) (s : OSState) :
    Except ServiceError ServiceDescription :=
  match o.mgrConnectErr with
  | some w => Except.error (serviceErrorFrom w)
  | none =>
      match openService o.openErr s with
      | Except.error e => Except.error e
      | Except.ok entry =>
          match o.queryConfigErr with
          | some w => Except.error (serviceErrorFrom w)
          | none =>
              Except.ok
                { friendly_name := entry.displayName,
                  binary_path := entry.executablePath, args := [] }

/-- `SystemService::install` (service.rs:141-158): connect with
`CREATE_SERVICE`, build the `ServiceInfo` from the given description,
`create_service`, then return `self.description()`. -/
def install (o : OSOracle) (s : OSState) (d : ServiceDescription) :
    Except ServiceError ServiceDescription × OSState :=
  match o.mgrConnectErr with
  | some w => (Except.error (serviceErrorFrom w), s)
  | none =>
      match
        createService o.createErr s
          { displayName := d.friendly_name, executablePath := d.binary_path,
            launchArguments := d.args } with
      | (Except.error e, s2) => (Except.error e, s2)
      | (Except.ok _, s2) => (description o s2, s2)

/-- `SystemService::uninstall` (service.rs:163-174): query `status()` first
(propagating its error); refuse with `ServiceRunning` while the status is
`Running`; otherwise open the service with full access and delete the
registration. -/
def uninstall (o : OSOracle) (s : OSState) :
    Except ServiceError Unit × OSState :=
  match status o s with
  | Except.error e => (Except.error e, s)
  | Except.ok st =>
      if st = ServiceStatus.running then
        (Except.error ServiceError.serviceRunning, s)
      else
        match o.mgrConnectErr with
        | some w => (Except.error (serviceErrorFrom w), s)
        | none =>
            match openService o.openErr s with
            | Except.error e => (Except.error e, s)
            | Except.ok _ =>
                match o.deleteErr with
                | some w => (Except.error (serviceErrorFrom w), s)
                | none => (Except.ok (), { s with registered := none })

/-- `SystemService::start` (service.rs:181-187): request-only start; the
OS acknowledgement or boundary-mapped failure is all that is returned. -/
def start (o : OSOracle) (s : OSState) : Except ServiceError Unit :=
  match o.mgrConnectErr with
  | some w => Except.error (serviceErrorFrom w)
  | none =>
      match openService o.openErr s with
      | Except.error e => Except.error e
      | Except.ok _ =>
          match o.startErr with
          | some w => Except.error (serviceErrorFrom w)
          | none => Except.ok ()

/-- `SystemService::stop` (service.rs:194-200): request-only stop. -/
def stop (o : OSOracle) (s : OSState) : Except ServiceError Unit :=
  match o.mgrConnectErr with
  | some w => Except.error (serviceErrorFrom w)
  | none =>
      match openService o.openErr s with
      | Except.error e => Except.error e
      | Except.ok _ =>
          match o.stopErr with
          | some w => Except.error (serviceErrorFrom w)
          | none => Except.ok ()

end SystemService

/-- Membership in the closed six-kind error taxonomy of `ServiceError`
(spec §3): the only error vocabulary allowed past the lifecycle-manager
boundary. -/
def inTaxonomy (e : ServiceError) : Prop :=
  e = ServiceError.accessDenied ∨ e = ServiceError.invalidServiceName ∨
  (∃ m, e = ServiceError.installationFailed m) ∨
  e = ServiceError.serviceNotInstalled ∨ e = ServiceError.serviceRunning ∨
  ∃ m, e = ServiceError.unknownError m

/-! ## Theorems -/

theorem runLoopAux_writes (N : Nat) : ∀ (st : RunState),
    st.counter + N ≤ U64MOD →
    (runLoopAux allCreationsOk (List.replicate N LoopEvent.connOk) st).writes =
      st.spawnedWrites ++ List.range' st.counter N := by
  induction N with
  | zero =>
      intro st _
      simp [runLoopAux, RunOutcome.writes, RunOutcome.state]
  | succ n ih =>
      intro st h
      rw [List.replicate_succ]
      rw [runLoopAux]
      simp only [allCreationsOk, if_true]
      rcases Nat.lt_or_ge (st.counter + 1) U64MOD with hc | hc
      · rw [ih _ (by simp [Nat.mod_eq_of_lt hc]; omega)]
        simp [Nat.mod_eq_of_lt hc, List.range'_succ]
      · have hn : n = 0 := by omega
        subst hn
        simp [runLoopAux, RunOutcome.writes, RunOutcome.state, List.range'_succ]

/-- C1: serving N serialized connections from a freshly started agent hands
the per-connection tasks exactly the values 0, 1, ..., N-1 in connection
order (strictly increasing, no repeats, no gaps, starting at 0); the
`N ≤ 2^64` bound reflects the claim's own carve-out that wrapping at the
64-bit boundary is a non-goal. -/
theorem sequential_counter_values (N : Nat) (h : N ≤ U64MOD) :
    (agentRun allCreationsOk (List.replicate N LoopEvent.connOk)).writes =
      List.range N := by
  rw [agentRun]
  simp only [allCreationsOk, if_true]
  rw [runLoopAux_writes N RunState.init (by simpa [RunState.init] using h)]
  simp [RunState.init, List.range_eq_range']

theorem sequential_counter_values_witness :
    (agentRun allCreationsOk (List.replicate 3 LoopEvent.connOk)).writes =
      List.range 3 :=
  sequential_counter_values 3 (by norm_num [U64MOD])

theorem runLoopAux_isErr (cr : Nat → Bool) : ∀ (evts : List LoopEvent) (st : RunState),
    (runLoopAux cr evts st).isErr = true →
    ∃ k, st.created ≤ k ∧ k < st.created + reachableConnOks evts ∧ cr k = false := by
  intro evts
  induction evts with
  | nil => intro st h; simp [runLoopAux, RunOutcome.isErr] at h
  | cons e rest ih =>
      intro st h
      match e with
      | LoopEvent.connOk =>
          rw [runLoopAux] at h
          have hreach : reachableConnOks (LoopEvent.connOk :: rest) =
              reachableConnOks rest + 1 := by
            simp [reachableConnOks, List.takeWhile_cons, List.countP_cons]
          by_cases hcr : cr st.created = true
          · rw [if_pos hcr] at h
            obtain ⟨k, hk1, hk2, hk3⟩ := ih _ h
            have hk1a : st.created + 1 ≤ k := hk1
            have hk2a : k < st.created + 1 + reachableConnOks rest := hk2
            exact ⟨k, by omega, by omega, hk3⟩
          · rw [if_neg hcr] at h
            exact ⟨st.created, le_refl _, by omega, by simpa using hcr⟩
      | LoopEvent.connErr m =>
          rw [runLoopAux] at h
          have hreach : reachableConnOks (LoopEvent.connErr m :: rest) =
              reachableConnOks rest := by
            simp [reachableConnOks, List.takeWhile_cons, List.countP_cons]
          obtain ⟨k, hk1, hk2, hk3⟩ := ih _ h
          have hk1a : st.created ≤ k := hk1
          have hk2a : k < st.created + reachableConnOks rest := hk2
          exact ⟨k, hk1a, by omega, hk3⟩
      | LoopEvent.shutdownReq =>
          rw [runLoopAux] at h
          simp [RunOutcome.isErr] at h

theorem agentRun_isErr (cr : Nat → Bool) (evts : List LoopEvent) :
    (agentRun cr evts).isErr = true →
    ∃ k, k ≤ reachableConnOks evts ∧ cr k = false := by
  intro h
  rw [agentRun] at h
  by_cases h0 : cr 0 = true
  · rw [if_pos h0] at h
    obtain ⟨k, hk1, hk2, hk3⟩ := runLoopAux_isErr cr evts RunState.init h
    have hk1a : 1 ≤ k := hk1
    have hk2a : k < 1 + reachableConnOks evts := hk2
    exact ⟨k, by omega, hk3⟩
  · exact ⟨0, Nat.zero_le _, by simpa using h0⟩

theorem runLoopAux_dropConnErrs (cr : Nat → Bool) : ∀ (evts : List LoopEvent) (st : RunState),
    runLoopAux cr (dropConnErrs evts) { st with acceptErrors := [] } =
      (runLoopAux cr evts st).scrub := by
  intro evts
  induction evts with
  | nil => intro st; simp [dropConnErrs, runLoopAux, RunOutcome.scrub]
  | cons e rest ih =>
      intro st
      match e with
      | LoopEvent.connOk =>
          show runLoopAux cr (LoopEvent.connOk :: dropConnErrs rest) _ = _
          rw [runLoopAux, runLoopAux]
          by_cases hcr : cr st.created = true
          · rw [if_pos hcr, if_pos hcr]
            exact ih
              { counter := (st.counter + 1) % U64MOD,
                spawnedWrites := st.spawnedWrites ++ [st.counter],
                acceptErrors := st.acceptErrors, created := st.created + 1,
                shutdownClosed := st.shutdownClosed,
                pendingDisconnected := st.pendingDisconnected }
          · rw [if_neg hcr, if_neg hcr]
            rfl
      | LoopEvent.connErr m =>
          show runLoopAux cr (dropConnErrs rest) _ = _
          rw [runLoopAux]
          exact ih
            { counter := st.counter, spawnedWrites := st.spawnedWrites,
              acceptErrors := st.acceptErrors ++ [m], created := st.created,
              shutdownClosed := st.shutdownClosed,
              pendingDisconnected := st.pendingDisconnected }
      | LoopEvent.shutdownReq =>
          show runLoopAux cr (LoopEvent.shutdownReq :: dropConnErrs rest) _ = _
          rw [runLoopAux, runLoopAux]
          rfl

theorem agentRun_dropConnErrs (cr : Nat → Bool) (evts : List LoopEvent) :
    agentRun cr (dropConnErrs evts) = (agentRun cr evts).scrub := by
  rw [agentRun, agentRun]
  by_cases h0 : cr 0 = true
  · rw [if_pos h0, if_pos h0]
    exact runLoopAux_dropConnErrs cr evts RunState.init
  · rw [if_neg h0, if_neg h0]
    rfl

/-- C2 counterexample: with the first endpoint creation succeeding and the
successor creation (after one accepted connection) failing, `run` returns
an error — so `run` does not error *only* when the very first creation
fails. -/
theorem run_error_despite_first_endpoint_ok :
    (fun n : Nat => n == 0) 0 = true ∧
    (agentRun (fun n : Nat => n == 0) [LoopEvent.connOk]).isErr = true :=
  ⟨rfl, rfl⟩

/-- C2 (amended): `run()` returns an error only when creation of a
listening endpoint fails — the very first one, or a successor provisioned
after an accepted connection (creation index `k ≤` the number of reachable
connections); accept errors never terminate the loop: removing them from
the script changes nothing but the error log. -/
theorem run_errors_only_from_endpoint_creation (cr : Nat → Bool) (evts : List LoopEvent) :
    ((agentRun cr evts).isErr = true →
      ∃ k, k ≤ reachableConnOks evts ∧ cr k = false) ∧
    agentRun cr (dropConnErrs evts) = (agentRun cr evts).scrub :=
  ⟨agentRun_isErr cr evts, agentRun_dropConnErrs cr evts⟩

theorem run_errors_only_from_endpoint_creation_witness :
    (∃ k, k ≤ reachableConnOks [LoopEvent.connOk] ∧
      (fun n : Nat => n == 0) k = false) ∧
    agentRun (fun n : Nat => n == 0) (dropConnErrs [LoopEvent.connOk]) =
      (agentRun (fun n : Nat => n == 0) [LoopEvent.connOk]).scrub :=
  ⟨(run_errors_only_from_endpoint_creation (fun n => n == 0) [LoopEvent.connOk]).1 rfl,
   (run_errors_only_from_endpoint_creation (fun n => n == 0) [LoopEvent.connOk]).2⟩

theorem runLoopAux_append (cr : Nat → Bool) : ∀ (xs ys : List LoopEvent) (st st1 : RunState),
    runLoopAux cr xs st = RunOutcome.stillRunning st1 →
    runLoopAux cr (xs ++ ys) st = runLoopAux cr ys st1 := by
  intro xs
  induction xs with
  | nil =>
      intro ys st st1 h
      simp [runLoopAux] at h
      subst h
      rfl
  | cons e rest ih =>
      intro ys st st1 h
      match e with
      | LoopEvent.connOk =>
          rw [runLoopAux] at h
          show runLoopAux cr (LoopEvent.connOk :: (rest ++ ys)) st = _
          rw [runLoopAux]
          by_cases hcr : cr st.created = true
          · rw [if_pos hcr] at h ⊢
            exact ih ys _ st1 h
          · rw [if_neg hcr] at h
            simp at h
      | LoopEvent.connErr m =>
          rw [runLoopAux] at h
          show runLoopAux cr (LoopEvent.connErr m :: (rest ++ ys)) st = _
          rw [runLoopAux]
          exact ih ys _ st1 h
      | LoopEvent.shutdownReq =>
          rw [runLoopAux] at h
          simp at h

/-- C3: once the loop processes a shutdown signal it closes the shutdown
channel, best-effort disconnects the pending idle endpoint, and returns
`Ok`; every event after the signal is left unprocessed (no new connection
is ever accepted), while the tasks spawned before the signal
(`spawnedWrites` of `st`) are carried over untouched — they are not
cancelled. -/
theorem shutdown_halts_accept_loop (cr : Nat → Bool) (pre post : List LoopEvent)
    (st : RunState) (h : agentRun cr pre = RunOutcome.stillRunning st) :
    agentRun cr (pre ++ LoopEvent.shutdownReq :: post) =
      RunOutcome.done
        { st with shutdownClosed := true, pendingDisconnected := true } post := by
  rw [agentRun] at h ⊢
  by_cases h0 : cr 0 = true
  · rw [if_pos h0] at h ⊢
    rw [runLoopAux_append cr pre (LoopEvent.shutdownReq :: post) RunState.init st h]
    rfl
  · rw [if_neg h0] at h
    simp at h

theorem shutdown_halts_accept_loop_witness :
    agentRun allCreationsOk
        ([LoopEvent.connOk] ++ LoopEvent.shutdownReq :: [LoopEvent.connOk]) =
      RunOutcome.done
        { counter := 1, spawnedWrites := [0], acceptErrors := [], created := 2,
          shutdownClosed := true, pendingDisconnected := true } [LoopEvent.connOk] :=
  shutdown_halts_accept_loop allCreationsOk [LoopEvent.connOk] [LoopEvent.connOk]
    { counter := 1, spawnedWrites := [0], acceptErrors := [], created := 2,
      shutdownClosed := false, pendingDisconnected := false } rfl

theorem decodeU64_encodeU64 (v : Nat) (h : v < U64MOD) :
    decodeU64 (encodeU64 v) = v := by
  rw [U64MOD] at h
  simp only [decodeU64, encodeU64]
  omega

/-- C7: a per-connection task delivers exactly 8 bytes encoding its counter
value `v` as an unsigned 64-bit integer before closing; `query_status` on
that stream returns exactly `v` (decode after encode is the identity), and
`query_status` fails when no server is listening or when the connection
closes before 8 bytes arrive. -/
theorem wire_roundtrip (v : Nat) (bs : List Nat) (hv : v < U64MOD) :
    (serveConnection v).length = 8 ∧
    query_status (ProbeConnection.stream (serveConnection v)) = Except.ok v ∧
    query_status ProbeConnection.refused = Except.error ProbeError.connectionRefused ∧
    (bs.length < 8 → query_status (ProbeConnection.stream bs) =
      Except.error ProbeError.truncatedRead) := by
  refine ⟨rfl, ?_, rfl, ?_⟩
  · show query_status (ProbeConnection.stream (encodeU64 v)) = Except.ok v
    rw [query_status]
    simp only [encodeU64, List.length_cons, List.length_nil]
    norm_num
    exact decodeU64_encodeU64 v hv
  · intro hb
    rw [query_status]
    simp [hb]

theorem wire_roundtrip_witness :
    (serveConnection 7).length = 8 ∧
    query_status (ProbeConnection.stream (serveConnection 7)) = Except.ok 7 ∧
    query_status ProbeConnection.refused = Except.error ProbeError.connectionRefused ∧
    ([1, 2, 3].length < 8 → query_status (ProbeConnection.stream [1, 2, 3]) =
      Except.error ProbeError.truncatedRead) :=
  wire_roundtrip 7 [1, 2, 3] (by norm_num [U64MOD])

/-- C8: signalling shutdown is a total (non-blocking) state transformation
whose result the caller discards (`let _ = try_send(())`), and it is a
silent no-op whenever the single slot is already occupied or the channel is
already closed — in particular a second signal after a first, on any
channel state, changes nothing. -/
theorem shutdown_signal_silent_noop (ch : ShutdownChannel) :
    (1 ≤ ch.queued ∨ ch.closed = true → signalShutdown ch = ch) ∧
    signalShutdown (signalShutdown ch) = signalShutdown ch := by
  constructor
  · intro h
    unfold signalShutdown trySend
    rcases h with hq | hc
    · by_cases hc2 : ch.closed = true
      · simp [hc2]
      · simp [hc2, hq]
    · simp [hc]
  · unfold signalShutdown trySend
    by_cases hc : ch.closed = true
    · simp [hc]
    · by_cases hq : 1 ≤ ch.queued
      · simp [hc, hq]
      · simp [hc, hq]

theorem shutdown_signal_silent_noop_witness :
    signalShutdown { queued := 1, closed := false } = { queued := 1, closed := false } :=
  (shutdown_signal_silent_noop { queued := 1, closed := false }).1 (Or.inl (by decide))

/-- C6: under a fault-free OS, `status()` reports `Uninstalled` exactly when
the service is not registered, `Stopped` exactly when it is registered with
the OS in the stopped state, and `Running` exactly when it is registered in
any other OS-reported state (transitional states included).  The result is
a function of the current OS registry state alone — `SystemService` holds
only the service name, so nothing is cached between calls. -/
theorem status_classification (s : OSState) :
    (SystemService.status OSOracle.clean s = Except.ok ServiceStatus.uninstalled ↔
      s.registered = none) ∧
    (SystemService.status OSOracle.clean s = Except.ok ServiceStatus.stopped ↔
      s.registered.isSome = true ∧ s.runState = OSServiceState.stopped) ∧
    (SystemService.status OSOracle.clean s = Except.ok ServiceStatus.running ↔
      s.registered.isSome = true ∧ s.runState ≠ OSServiceState.stopped) := by
  obtain ⟨reg, rs⟩ := s
  cases reg <;> cases rs <;>
    simp [SystemService.status, OSOracle.clean, openService, serviceErrorFrom, notFoundMsg]

theorem serviceErrorTaxonomy_total (e : ServiceError) : inTaxonomy e := by
  cases e <;> simp [inTaxonomy]

/-- C9: every OS-level service-manager error surfaced by any
`SystemService` operation is one of the six `ServiceError` kinds; the
boundary mapping is total (each `windows_service::Error` lands in exactly
one kind, the constructors being pairwise distinct), and no operation ever
returns a value of the raw OS error type — their error channel is
`ServiceError` throughout. -/
theorem os_errors_stay_in_taxonomy (w : WinServiceError) (o : OSOracle) (s : OSState)
    (d : ServiceDescription) (e : ServiceError) :
    inTaxonomy (serviceErrorFrom w) ∧
    (SystemService.status o s = Except.error e → inTaxonomy e) ∧
    ((SystemService.install o s d).1 = Except.error e → inTaxonomy e) ∧
    ((SystemService.uninstall o s).1 = Except.error e → inTaxonomy e) ∧
    (SystemService.start o s = Except.error e → inTaxonomy e) ∧
    (SystemService.stop o s = Except.error e → inTaxonomy e) ∧
    (SystemService.description o s = Except.error e → inTaxonomy e) :=
  ⟨serviceErrorTaxonomy_total _, fun _ => serviceErrorTaxonomy_total e,
   fun _ => serviceErrorTaxonomy_total e, fun _ => serviceErrorTaxonomy_total e,
   fun _ => serviceErrorTaxonomy_total e, fun _ => serviceErrorTaxonomy_total e,
   fun _ => serviceErrorTaxonomy_total e⟩

theorem os_errors_stay_in_taxonomy_witness : inTaxonomy ServiceError.accessDenied :=
  (os_errors_stay_in_taxonomy
      (WinServiceError.winapi IoKind.permissionDenied none "denied")
      { mgrConnectErr := some (WinServiceError.winapi IoKind.permissionDenied none "denied") }
      { registered := none, runState := OSServiceState.stopped }
      { friendly_name := "Porcelet Agent", binary_path := "porcelet.exe", args := [] }
      ServiceError.accessDenied).2.1 rfl

/-- C10: when `open_service` inside `status()` fails with anything that does
not map to `ServiceNotInstalled` (an access-denied failure, say), `status()`
returns `InstallationFailed` carrying the mapped error's display message —
never `AccessDenied` and never `UnknownError`, even when the boundary
mapping produced one of those kinds. -/
theorem status_open_failure_rewrapped (w : WinServiceError) (s : OSState)
    (hw : serviceErrorFrom w ≠ ServiceError.serviceNotInstalled) :
    SystemService.status { openErr := some w } s =
      Except.error (ServiceError.installationFailed (serviceErrorFrom w).display) ∧
    (∀ m, SystemService.status { openErr := some w } s ≠
      Except.error (ServiceError.unknownError m)) ∧
    SystemService.status { openErr := some w } s ≠
      Except.error ServiceError.accessDenied := by
  have h1 : SystemService.status { openErr := some w } s =
      Except.error (ServiceError.installationFailed (serviceErrorFrom w).display) := by
    cases he : serviceErrorFrom w <;>
      simp_all [SystemService.status, openService]
  refine ⟨h1, ?_, ?_⟩
  · intro m
    rw [h1]
    simp
  · rw [h1]
    simp

theorem status_open_failure_rewrapped_witness :
    SystemService.status
        { openErr := some (WinServiceError.winapi IoKind.permissionDenied none "denied") }
        { registered := none, runState := OSServiceState.stopped } =
      Except.error (ServiceError.installationFailed
        (serviceErrorFrom (WinServiceError.winapi IoKind.permissionDenied none "denied")).display) ∧
    (∀ m, SystemService.status
        { openErr := some (WinServiceError.winapi IoKind.permissionDenied none "denied") }
        { registered := none, runState := OSServiceState.stopped } ≠
      Except.error (ServiceError.unknownError m)) ∧
    SystemService.status
        { openErr := some (WinServiceError.winapi IoKind.permissionDenied none "denied") }
        { registered := none, runState := OSServiceState.stopped } ≠
      Except.error ServiceError.accessDenied :=
  status_open_failure_rewrapped
    (WinServiceError.winapi IoKind.permissionDenied none "denied")
    { registered := none, runState := OSServiceState.stopped } (by decide)

set_option maxHeartbeats 1600000 in
/-- C4: whenever `install(description)` succeeds its returned
`ServiceDescription` has empty launch arguments (the `description()` it
ends with always reports `args = []`); and on an already-installed service,
a fault-free `install` rewrites the persisted registration to the new
configuration while leaving the OS-reported run state untouched — the
running instance is not restarted. -/
theorem install_updates_config_args_empty (o : OSOracle) (s : OSState)
    (d : ServiceDescription) :
    (∀ dsc s2, SystemService.install o s d = (Except.ok dsc, s2) → dsc.args = []) ∧
    (s.registered.isSome = true →
      SystemService.install OSOracle.clean s d =
        (Except.ok
          { friendly_name := d.friendly_name, binary_path := d.binary_path, args := [] },
         { registered := some
            { displayName := d.friendly_name, executablePath := d.binary_path,
              launchArguments := d.args },
           runState := s.runState })) := by
  constructor
  · intro dsc s2 h
    obtain ⟨mg, op, qs, qc, cre, del, sta, sto⟩ := o
    cases mg <;> cases cre <;> cases op <;> cases qc <;>
      simp [SystemService.install, SystemService.description, createService,
        openService] at h
    rw [← h.1]
  · intro _
    rfl

theorem install_updates_config_args_empty_witness :
    SystemService.install OSOracle.clean
        { registered := some
            { displayName := "old", executablePath := "old.exe", launchArguments := [] },
          runState := OSServiceState.running }
        { friendly_name := "Porcelet Agent", binary_path := "porcelet.exe",
          args := ["run-as-service"] } =
      (Except.ok
        { friendly_name := "Porcelet Agent", binary_path := "porcelet.exe", args := [] },
       { registered := some
          { displayName := "Porcelet Agent", executablePath := "porcelet.exe",
            launchArguments := ["run-as-service"] },
         runState := OSServiceState.running }) :=
  (install_updates_config_args_empty OSOracle.clean
      { registered := some
          { displayName := "old", executablePath := "old.exe", launchArguments := [] },
        runState := OSServiceState.running }
      { friendly_name := "Porcelet Agent", binary_path := "porcelet.exe",
        args := ["run-as-service"] }).2 rfl

/-- C5: `uninstall()` fails with the `ServiceRunning` error kind whenever
`status()` reports `Running`, and in that case the OS state — registration
included — is left exactly as it was (no deletion, no implicit stop);
conversely any change `uninstall()` makes to the OS state happens only when
`status()` is not `Running`, and that change is precisely the successful
deletion of the registration. -/
theorem uninstall_blocked_while_running (o : OSOracle) (s : OSState) :
    (SystemService.status o s = Except.ok ServiceStatus.running →
      SystemService.uninstall o s = (Except.error ServiceError.serviceRunning, s)) ∧
    ((SystemService.uninstall o s).2 ≠ s →
      SystemService.status o s ≠ Except.ok ServiceStatus.running ∧
      (SystemService.uninstall o s).2 = { s with registered := none } ∧
      (SystemService.uninstall o s).1 = Except.ok ()) := by
  constructor
  · intro h
    rw [SystemService.uninstall, h]
    simp
  · rw [SystemService.uninstall]
    cases hs : SystemService.status o s with
    | error e => intro hne; simp at hne
    | ok st =>
        cases st with
        | running => intro hne; simp at hne
        | uninstalled =>
            cases hm : o.mgrConnectErr with
            | some w => intro hne; simp at hne
            | none =>
                cases ho : openService o.openErr s with
                | error e => intro hne; simp at hne
                | ok entry =>
                    cases hd : o.deleteErr with
                    | some w => intro hne; simp at hne
                    | none => intro hne; exact ⟨by simp, by simp, by simp⟩
        | stopped =>
            cases hm : o.mgrConnectErr with
            | some w => intro hne; simp at hne
            | none =>
                cases ho : openService o.openErr s with
                | error e => intro hne; simp at hne
                | ok entry =>
                    cases hd : o.deleteErr with
                    | some w => intro hne; simp at hne
                    | none => intro hne; exact ⟨by simp, by simp, by simp⟩

theorem uninstall_blocked_while_running_witness :
    SystemService.uninstall OSOracle.clean
        { registered := some
            { displayName := "Porcelet Agent", executablePath := "porcelet.exe",
              launchArguments := [] },
          runState := OSServiceState.running } =
      (Except.error ServiceError.serviceRunning,
       { registered := some
          { displayName := "Porcelet Agent", executablePath := "porcelet.exe",
            launchArguments := [] },
         runState := OSServiceState.running }) :=
  (uninstall_blocked_while_running OSOracle.clean
      { registered := some
          { displayName := "Porcelet Agent", executablePath := "porcelet.exe",
            launchArguments := [] },
        runState := OSServiceState.running }).1 rfl

end Mosspiglet
